import Mathlib

/-!
Verification of the process entry point `src/api/wsgi.py` of the
queue-management repository.

The visible source is (line by line):

  1:  imports of os and sys
  2:  sys.path.insert(0, os.path.dirname(__file__))
  4:  the eventlet module is imported
  5:  # Exclude psycopg from monkey patching
  6:  eventlet.monkey_patch(psycopg=False)
  8:  from qsystem the names application and socketio are imported
  10: if __name__ == "__main__":
  11:     socketio.run(application, host="0.0.0.0", port=5000, debug=True)

We embed the module as a list of statements and give it a deterministic
small-step interpretation over an explicit process state (module search
path, patch registry, imported modules, launched server, event trace).
The semantics of the external collaborators (the eventlet installer, the
socketio launcher, Python module resolution) is modelled from the spec,
since their code is not part of this repository.
-/

namespace Wsgi

/-- Subsystems recognised by the concurrency-substrate installer.
Modelled from the spec: the recognized configuration options are
network sockets, OS threads, timers (patchable) and the PostgreSQL
database driver psycopg (excludable). -/
inductive Subsystem
  | networkSockets
  | osThreads
  | timers
  | databaseDriver
  deriving DecidableEq, Repr

/-- The full list of recognised subsystems. -/
def Subsystem.all : List Subsystem :=
  [.networkSockets, .osThreads, .timers, .databaseDriver]

/-- Arguments of the server-launch call `socketio.run(application, host=..., port=..., debug=...)`. -/
structure RunArgs where
  app : String
  host : String
  port : Nat
  debug : Bool
  deriving DecidableEq, Repr

/-- Outcome of the external launcher once the launch call is made.
Modelled from the spec: the call either serves until graceful shutdown
or fails fatally at startup (address in use, permission denied,
malformed bind parameters). -/
inductive LaunchOutcome
  | graceful
  | bindFailure
  deriving DecidableEq, Repr

/-- A raised exception. The only fault source in this entry point is a
fatal startup error of the launch call. -/
inductive Exn
  | startupError
  deriving DecidableEq, Repr

/-- Observable events emitted while the module executes, in order. -/
inductive Event
  | importEv (name : String)
  | pathInsertEv (idx : Nat) (dir : String)
  | patchEv (kwargs : List (Subsystem × Bool))
  | runEv (args : RunArgs)
  deriving DecidableEq, Repr

/-- Event is the monkey-patch installation. -/
def Event.isPatch : Event → Bool
  | .patchEv _ => true
  | _ => false

/-- Event is the server-launch call. -/
def Event.isRun : Event → Bool
  | .runEv _ => true
  | _ => false

/-- Process-wide global state threaded through the interpreter. -/
structure ProcState where
  sysPath : List String
  patched : List Subsystem
  patchCalls : Nat
  imported : List String
  launched : Option RunArgs
  trace : List Event
  deriving DecidableEq, Repr

/-- Python list.insert semantics: insert at position `i` (clamped to
the list length). -/
def listInsert {α : Type} (i : Nat) (a : α) (l : List α) : List α :=
  l.take i ++ a :: l.drop i

/-- Patch configuration derived from the keyword arguments of a
monkey_patch call. Modelled from the spec: every recognised subsystem
is patched unless its keyword argument says otherwise. -/
def cfgOfKwargs (kwargs : List (Subsystem × Bool)) (s : Subsystem) : Bool :=
  match kwargs.lookup s with
  | some b => b
  | none => true

/-- Statements of the entry-point module (the fragment of Python the
file uses, plus the try/except form, to state its absence). -/
inductive Stmt
  | importMod (name : String)
  | pathInsert (idx : Nat) (dir : String)
  | monkeyPatch (kwargs : List (Subsystem × Bool))
  | ifMain (body : List Stmt)
  | tryExcept (body : List Stmt) (handler : List Stmt)
  | runServer (args : RunArgs)

/-- Inputs of one process execution: whether the file runs as the main
program, the environment variables and command-line arguments the
process was given, the directory of the entry-point file
(`os.path.dirname(__file__)`), the launch outcome the outside world
produces, and the initial module search path. -/
structure ProcInput where
  isMain : Bool
  env : List (String × String)
  argv : List String
  scriptDir : String
  launchOutcome : LaunchOutcome
  sysPath0 : List String

mutual

/-- Execute one statement. Importing records the module; the path
insertion edits `sys.path`; the installer rewrites the patch registry
from its keyword arguments; the `__main__` guard runs its body only
when the file is the main program; try/except runs the handler when the
body raises; the launch call emits its event and then either serves to
graceful shutdown or raises a fatal startup error. -/
def execStmt (inp : ProcInput) : Stmt → ProcState → ProcState × Option Exn
  | .importMod n, st =>
      ({ st with imported := st.imported ++ [n],
                 trace := st.trace ++ [.importEv n] }, none)
  | .pathInsert i d, st =>
      ({ st with sysPath := listInsert i d st.sysPath,
                 trace := st.trace ++ [.pathInsertEv i d] }, none)
  | .monkeyPatch kwargs, st =>
      ({ st with patched := Subsystem.all.filter (cfgOfKwargs kwargs),
                 patchCalls := st.patchCalls + 1,
                 trace := st.trace ++ [.patchEv kwargs] }, none)
  | .ifMain body, st =>
      if inp.isMain then execStmts inp body st else (st, none)
  | .tryExcept body handler, st =>
      match execStmts inp body st with
      | (st1, none) => (st1, none)
      | (st1, some _) => execStmts inp handler st1
  | .runServer args, st =>
      let st1 := { st with trace := st.trace ++ [.runEv args] }
      match inp.launchOutcome with
      | .graceful => ({ st1 with launched := some args }, none)
      | .bindFailure => (st1, some .startupError)

/-- Execute a statement list in order; an uncaught exception aborts the
remaining statements. -/
def execStmts (inp : ProcInput) : List Stmt → ProcState → ProcState × Option Exn
  | [], st => (st, none)
  | s :: rest, st =>
      match execStmt inp s st with
      | (st1, none) => execStmts inp rest st1
      | (st1, some e) => (st1, some e)

end

/-- The keyword arguments of the installer call on line 6:
`eventlet.monkey_patch(psycopg=False)`. -/
def wsgiKwargs : List (Subsystem × Bool) := [(.databaseDriver, false)]

/-- The arguments of the launch call on line 11:
`socketio.run(application, host="0.0.0.0", port=5000, debug=True)`. -/
def wsgiRunArgs : RunArgs :=
  { app := "application", host := "0.0.0.0", port := 5000, debug := true }

/-- The entry-point module `src/api/wsgi.py`, statement by statement
(`import os, sys` contributes two import statements). -/
def wsgiModule (scriptDir : String) : List Stmt :=
  [ .importMod "os",
    .importMod "sys",
    .pathInsert 0 scriptDir,
    .importMod "eventlet",
    .monkeyPatch wsgiKwargs,
    .importMod "qsystem",
    .ifMain [.runServer wsgiRunArgs] ]

/-- Process state before the module runs: the given initial module
search path, nothing patched, nothing imported, no server launched. -/
def initState (sysPath0 : List String) : ProcState :=
  { sysPath := sysPath0, patched := [], patchCalls := 0,
    imported := [], launched := none, trace := [] }

/-- Run the whole entry-point module on the given process inputs. -/
def runWsgi (inp : ProcInput) : ProcState × Option Exn :=
  execStmts inp (wsgiModule inp.scriptDir) (initState inp.sysPath0)

/-- Exit status of the process: 0 when no exception escapes the module,
1 when one does (Python terminates with a non-zero status on an
unhandled exception). -/
def exitCode (inp : ProcInput) : Nat :=
  match (runWsgi inp).2 with
  | none => 0
  | some _ => 1

/-- Process state after the first `n` statements of the module. -/
def stateAfter (inp : ProcInput) (n : Nat) : ProcState :=
  (execStmts inp ((wsgiModule inp.scriptDir).take n) (initState inp.sysPath0)).1

mutual

/-- Statement contains an exception handler (try/except) anywhere. -/
def stmtHasHandler : Stmt → Bool
  | .tryExcept _ _ => true
  | .ifMain body => stmtsHaveHandler body
  | _ => false

/-- Statement list contains an exception handler anywhere. -/
def stmtsHaveHandler : List Stmt → Bool
  | [] => false
  | s :: rest => stmtHasHandler s || stmtsHaveHandler rest

end

mutual

/-- Number of installer calls occurring anywhere in a statement. -/
def stmtPatchCount : Stmt → Nat
  | .monkeyPatch _ => 1
  | .ifMain body => stmtsPatchCount body
  | .tryExcept body handler => stmtsPatchCount body + stmtsPatchCount handler
  | _ => 0

/-- Number of installer calls occurring anywhere in a statement list. -/
def stmtsPatchCount : List Stmt → Nat
  | [] => 0
  | s :: rest => stmtPatchCount s + stmtsPatchCount rest

end

/-- Statement is an installer call at this level (not nested). -/
def Stmt.isTopPatch : Stmt → Bool
  | .monkeyPatch _ => true
  | _ => false

/-- Python module resolution, modelled from the spec: an import binds
to the first `sys.path` entry that provides the module. -/
def resolveModule (sysPath : List String) (provides : String → String → Bool)
    (m : String) : Option String :=
  sysPath.find? (fun d => provides d m)

end Wsgi

namespace Wsgi

/-- C1, counterexample: the monkey-patch installation is not the first
action taken by the process. In the concrete run (main program, script
directory "/repo/api", empty environment and argument list, graceful
outcome) the first event of the trace is the import of `os`, not the
patch call. -/
theorem c1_patch_not_first_action :
    ¬ ((runWsgi ⟨true, [], [], "/repo/api", .graceful, []⟩).1.trace.head? =
        some (.patchEv wsgiKwargs)) ∧
    (runWsgi ⟨true, [], [], "/repo/api", .graceful, []⟩).1.trace.head? =
      some (.importEv "os") := by decide

set_option maxHeartbeats 1600000 in
/-- C1, amended: in every execution the monkey-patch installation
executes exactly once, and before the application module `qsystem` (and
hence before any database module reached through it) is imported; the
only actions preceding it are the imports of `os`, `sys` and `eventlet`
and the module search path insertion — no networking or database module
is imported before it. -/
theorem c1_patch_once_before_qsystem (m : Bool) (d : String) (p0 : List String)
    (env : List (String × String)) (argv : List String) (o : LaunchOutcome) :
    ((runWsgi ⟨m, env, argv, d, o, p0⟩).1.trace.countP Event.isPatch) = 1 ∧
    ((runWsgi ⟨m, env, argv, d, o, p0⟩).1.trace.takeWhile (fun e => !e.isPatch)) =
      [.importEv "os", .importEv "sys", .pathInsertEv 0 d, .importEv "eventlet"] ∧
    ((runWsgi ⟨m, env, argv, d, o, p0⟩).1.trace.contains (.importEv "qsystem")) = true := by
  cases m <;> cases o <;> exact ⟨rfl, rfl, rfl⟩

/-- C2: the installer call passes exactly the keyword `psycopg=False`,
so the derived configuration patches network sockets, OS threads and
timers and excludes exactly one subsystem, the database driver; after
every execution of the module the database driver is absent from the
patch registry, exactly as in the pre-installation state. -/
theorem c2_psycopg_excluded (m : Bool) (d : String) (p0 : List String)
    (env : List (String × String)) (argv : List String) (o : LaunchOutcome) :
    wsgiKwargs = [(.databaseDriver, false)] ∧
    Subsystem.all.filter (fun s => !cfgOfKwargs wsgiKwargs s) = [.databaseDriver] ∧
    cfgOfKwargs wsgiKwargs .networkSockets = true ∧
    cfgOfKwargs wsgiKwargs .osThreads = true ∧
    cfgOfKwargs wsgiKwargs .timers = true ∧
    (runWsgi ⟨m, env, argv, d, o, p0⟩).1.patched =
      [.networkSockets, .osThreads, .timers] ∧
    ((runWsgi ⟨m, env, argv, d, o, p0⟩).1.patched.contains .databaseDriver) =
      ((initState p0).patched.contains .databaseDriver) := by
  cases m <;> cases o <;> exact ⟨rfl, rfl, rfl, rfl, rfl, rfl, rfl⟩

/-- C3: when the file runs as the main program and the server starts,
the launcher receives exactly the application object, host "0.0.0.0",
port 5000 and debug true, whatever the environment variables and
command-line arguments are. -/
theorem c3_launch_arguments (d : String) (p0 : List String)
    (env : List (String × String)) (argv : List String) :
    (runWsgi ⟨true, env, argv, d, .graceful, p0⟩).1.launched =
      some { app := "application", host := "0.0.0.0", port := 5000, debug := true } := by
  rfl

/-- C4: the server-launch call is the final action of the entry point:
in every main-program execution it is the last event of the trace and
occurs exactly once, so no statement executes after it; the process
continues past it only when the launcher returns (graceful shutdown or
fatal startup error). -/
theorem c4_launch_is_last (d : String) (p0 : List String)
    (env : List (String × String)) (argv : List String) (o : LaunchOutcome) :
    (runWsgi ⟨true, env, argv, d, o, p0⟩).1.trace.getLast? =
      some (.runEv wsgiRunArgs) ∧
    ((runWsgi ⟨true, env, argv, d, o, p0⟩).1.trace.countP Event.isRun) = 1 := by
  cases o <;> exact ⟨rfl, rfl⟩

/-- C5: the entry point contains no exception handler, so a fatal bind
failure of the launch call escapes and terminates the process with a
non-zero exit status and no server ever launched, while a graceful
shutdown exits with status 0. -/
theorem c5_bind_failure_fatal (d : String) (p0 : List String)
    (env : List (String × String)) (argv : List String) :
    stmtsHaveHandler (wsgiModule d) = false ∧
    exitCode ⟨true, env, argv, d, .bindFailure, p0⟩ ≠ 0 ∧
    exitCode ⟨true, env, argv, d, .bindFailure, p0⟩ = 1 ∧
    exitCode ⟨true, env, argv, d, .graceful, p0⟩ = 0 ∧
    (runWsgi ⟨true, env, argv, d, .bindFailure, p0⟩).1.launched = none :=
  ⟨rfl, fun h => Nat.one_ne_zero h, rfl, rfl, rfl⟩

/-- C6: the patch configuration is written exactly once per execution
and never mutated afterward: the module contains exactly one installer
call, at top level, every execution performs exactly one installation,
and the patch registry after the whole run equals the registry right
after the installer statement (statement 5). -/
theorem c6_patch_write_once (m : Bool) (d : String) (p0 : List String)
    (env : List (String × String)) (argv : List String) (o : LaunchOutcome) :
    stmtsPatchCount (wsgiModule d) = 1 ∧
    ((wsgiModule d).countP Stmt.isTopPatch) = 1 ∧
    (runWsgi ⟨m, env, argv, d, o, p0⟩).1.patchCalls = 1 ∧
    (runWsgi ⟨m, env, argv, d, o, p0⟩).1.patched =
      (stateAfter ⟨m, env, argv, d, o, p0⟩ 5).patched := by
  cases m <;> cases o <;> exact ⟨rfl, rfl, rfl, rfl⟩

/-- C7, counterexample: the side effects performed before launching the
server are not purely the patch state: in the concrete run (main
program, script directory "/repo/api", empty initial search path), after
the six statements preceding the launch the module search path — global
process state distinct from the patch registry — differs from its
initial value, while the server is not yet launched. -/
theorem c7_sys_path_also_modified :
    ((stateAfter ⟨true, [], [], "/repo/api", .graceful, []⟩ 6).sysPath ≠
      (initState ([] : List String)).sysPath) ∧
    (stateAfter ⟨true, [], [], "/repo/api", .graceful, []⟩ 6).launched = none := by
  decide

/-- C7, amended: the installer produces no value consumed by the
program, and the side effects performed before the launch consist of
the patch state together with the module search path insertion and the
recording of the four imported modules (os, sys, eventlet, qsystem); no
server is launched before that point. -/
theorem c7_effects_before_launch (m : Bool) (d : String) (p0 : List String)
    (env : List (String × String)) (argv : List String) (o : LaunchOutcome) :
    (stateAfter ⟨m, env, argv, d, o, p0⟩ 6).sysPath = d :: p0 ∧
    (stateAfter ⟨m, env, argv, d, o, p0⟩ 6).patched =
      [.networkSockets, .osThreads, .timers] ∧
    (stateAfter ⟨m, env, argv, d, o, p0⟩ 6).patchCalls = 1 ∧
    (stateAfter ⟨m, env, argv, d, o, p0⟩ 6).imported =
      ["os", "sys", "eventlet", "qsystem"] ∧
    (stateAfter ⟨m, env, argv, d, o, p0⟩ 6).launched = none := by
  cases m <;> cases o <;> exact ⟨rfl, rfl, rfl, rfl, rfl⟩

/-- C8: two executions differing only in environment variables and
command-line arguments produce identical results: the whole final state
(patch registry, search path, launch arguments, trace) and exit
behaviour are independent of both, because the code reads neither. -/
theorem c8_env_argv_independent (m : Bool) (d : String) (p0 : List String)
    (o : LaunchOutcome) (env1 env2 : List (String × String))
    (argv1 argv2 : List String) :
    runWsgi ⟨m, env1, argv1, d, o, p0⟩ = runWsgi ⟨m, env2, argv2, d, o, p0⟩ := by
  cases m <;> cases o <;> rfl

/-- C9: the server-launch call executes exactly when the file runs as
the main program; when the module is merely imported, the monkey-patch
installation and the qsystem import still happen but no launch event
ever occurs. -/
theorem c9_main_guard (d : String) (p0 : List String)
    (env : List (String × String)) (argv : List String) (o : LaunchOutcome) :
    ((runWsgi ⟨true, env, argv, d, o, p0⟩).1.trace.any Event.isRun) = true ∧
    ((runWsgi ⟨false, env, argv, d, o, p0⟩).1.trace.any Event.isRun) = false ∧
    ((runWsgi ⟨false, env, argv, d, o, p0⟩).1.trace.countP Event.isPatch) = 1 ∧
    ((runWsgi ⟨false, env, argv, d, o, p0⟩).1.trace.contains (.importEv "qsystem")) = true := by
  cases o <;> exact ⟨rfl, rfl, rfl, rfl⟩

/-- C10: when the qsystem import statement executes (after the first
five statements), the script directory stands at the front of the
module search path, so whenever that directory provides a module named
qsystem, resolution binds qsystem to the script directory in preference
to any later (installed) search path entry. -/
theorem c10_script_dir_precedes (m : Bool) (d : String) (p0 : List String)
    (env : List (String × String)) (argv : List String) (o : LaunchOutcome)
    (provides : String → String → Bool) (h : provides d "qsystem" = true) :
    (stateAfter ⟨m, env, argv, d, o, p0⟩ 5).sysPath = d :: p0 ∧
    resolveModule (stateAfter ⟨m, env, argv, d, o, p0⟩ 5).sysPath provides "qsystem" =
      some d := by
  have hp : (stateAfter ⟨m, env, argv, d, o, p0⟩ 5).sysPath = d :: p0 := by
    cases m <;> cases o <;> rfl
  refine ⟨hp, ?_⟩
  simp only [resolveModule]
  rw [hp]
  exact List.find?_cons_of_pos _ h

/-- C10 witness: with script directory "/repo/api", an initial search
path holding an installed directory "/usr/site" that also provides
qsystem, and a provider function under which both directories provide
qsystem, resolution picks the script directory. -/
theorem c10_script_dir_precedes_witness :
    (stateAfter ⟨true, [], [], "/repo/api", .graceful, ["/usr/site"]⟩ 5).sysPath =
      "/repo/api" :: ["/usr/site"] ∧
    resolveModule (stateAfter ⟨true, [], [], "/repo/api", .graceful, ["/usr/site"]⟩ 5).sysPath
      (fun dir mo => (dir == "/repo/api" || dir == "/usr/site") && mo == "qsystem")
      "qsystem" = some "/repo/api" :=
  c10_script_dir_precedes true "/repo/api" ["/usr/site"] [] [] .graceful
    (fun dir mo => (dir == "/repo/api" || dir == "/usr/site") && mo == "qsystem")
    (by decide)

end Wsgi
